import Mathlib

/-!
Shallow embedding of the IFT-1004 Union ledger application
(src/transactions.py, src/gestion_utilisateurs.py, src/utilitaires.py,
src/configuration.py).

The two persisted flat files are modelled as lists of parsed records:
the accounts file (one record per line, fields username, password hash,
balance in cents) and the transactions file (sender, receiver, amount,
fee, timestamp).  Console input becomes explicit function arguments,
console output is dropped, and the wall clock is an explicit timestamp
argument.  Python floats entered for dollar amounts are modelled as
rationals; Python int() truncation toward zero is Int.tdiv / explicit
floor-or-ceil.
-/

/-- One record of the accounts file: a line username,password_hash,balance. -/
structure Utilisateur where
  nom : String
  mot_de_passe : String
  solde : Int
deriving DecidableEq, Repr

/-- One record of the transactions file: a line sender,receiver,amount,fee,timestamp. -/
structure Transaction where
  expediteur : String
  destinataire : String
  montant : Int
  frais : Int
  date_heure : String
deriving DecidableEq, Repr

/-- The persisted state: contents of FICHIER_UTILISATEURS and FICHIER_TRANSACTIONS. -/
structure Etat where
  utilisateurs : List Utilisateur
  transactions : List Transaction
deriving DecidableEq, Repr

/-- src/utilitaires.py, convertir_dollars_vers_centimes: int(montant_dollars * 100).
Python int() truncates toward zero; the float argument is modelled as a rational. -/
def convertir_dollars_vers_centimes (montant_dollars : ℚ) : Int :=
  if 0 ≤ montant_dollars * 100 then ⌊montant_dollars * 100⌋ else ⌈montant_dollars * 100⌉

/-- src/configuration.py, SOLDE_INITIAL = convertir_dollars_vers_centimes(1000). -/
def SOLDE_INITIAL : Int := convertir_dollars_vers_centimes 1000

/-- src/configuration.py, NOM_UTILISATEUR_ADMIN. -/
def NOM_UTILISATEUR_ADMIN : String := "ift-1004-union"

/-- One entry of FRAIS_TRANSACTIONS: a dict with keys min, max, frais.
The unbounded upper bound math.inf is modelled as none. -/
structure Tranche where
  borne_inf : Int
  borne_sup : Option Int
  frais : Int
deriving DecidableEq, Repr

/-- src/configuration.py, FRAIS_TRANSACTIONS. -/
def FRAIS_TRANSACTIONS : List Tranche :=
  [⟨0, some 100, 5⟩,
   ⟨101, some 500, 10⟩,
   ⟨501, some 1000, 15⟩,
   ⟨1001, some 5000, 20⟩,
   ⟨5001, none, 25⟩]

/-- The test tranche["min"] <= montant <= tranche["max"] of calculer_frais
(a comparison with math.inf is always true). -/
def dans_tranche (t : Tranche) (montant : Int) : Bool :=
  t.borne_inf ≤ montant &&
    (match t.borne_sup with
     | none => true
     | some b => montant ≤ b)

/-- The scan of FRAIS_TRANSACTIONS in src/transactions.py, calculer_frais:
return int(montant * tranche["frais"] / 100) for the first matching tranche,
0 when none matches.  Python int() of the float quotient truncates toward
zero, which on these operands is Int.tdiv. -/
def calculer_frais_aux : List Tranche → Int → Int
  | [], _ => 0
  | t :: reste, montant =>
      if dans_tranche t montant then Int.tdiv (montant * t.frais) 100
      else calculer_frais_aux reste montant

/-- src/transactions.py, calculer_frais. -/
def calculer_frais (montant : Int) : Int :=
  calculer_frais_aux FRAIS_TRANSACTIONS montant

/-- src/utilitaires.py, hacher_mot_de_passe.  The SHA-256 hex digest is
modelled abstractly by an injective encoding: no claim depends on actual
hash values, only on records carrying some stored digest. -/
def hacher_mot_de_passe (mot_de_passe : String) : String :=
  mot_de_passe

/-- src/gestion_utilisateurs.py, utilisateur_existe: scan the accounts file,
return True on the first line whose first field equals the username. -/
def utilisateur_existe (utilisateurs : List Utilisateur) (nom_utilisateur : String) : Bool :=
  utilisateurs.any (fun u => u.nom == nom_utilisateur)

/-- src/transactions.py, recuperer_solde: scan the accounts file, return the
balance of the first line whose first field equals the username, 0 when absent. -/
def recuperer_solde : List Utilisateur → String → Int
  | [], _ => 0
  | u :: reste, nom_utilisateur =>
      if u.nom = nom_utilisateur then u.solde else recuperer_solde reste nom_utilisateur

/-- src/transactions.py, ajouter_au_solde: read every line, add montant to the
balance of every line whose username matches, rewrite the whole file, and
return True unconditionally. -/
def ajouter_au_solde (utilisateurs : List Utilisateur) (nom_utilisateur : String)
    (montant : Int) : Bool × List Utilisateur :=
  (true,
   utilisateurs.map (fun u =>
     if u.nom = nom_utilisateur then ⟨u.nom, u.mot_de_passe, u.solde + montant⟩ else u))

/-- src/transactions.py, enregistrer_transaction: append one line
expediteur,destinataire,montant,frais,date_heure to the transactions file.
The datetime.now() timestamp is the explicit date_heure argument. -/
def enregistrer_transaction (etat : Etat) (expediteur destinataire : String)
    (montant frais : Int) (date_heure : String) : Etat :=
  ⟨etat.utilisateurs, etat.transactions ++ [⟨expediteur, destinataire, montant, frais, date_heure⟩]⟩

/-- src/transactions.py, envoyer_argent.  The two input() calls become the
destinataire and montant_dollars arguments.  The source also reads the
receiver balance into an unused local variable; being a pure read it is
omitted.  Note that the source never checks that the receiver exists. -/
def envoyer_argent (etat : Etat) (nom_utilisateur destinataire : String)
    (montant_dollars : ℚ) (date_heure : String) : Bool × Etat :=
  if destinataire = nom_utilisateur then (false, etat)
  else if montant_dollars ≤ 0 then (false, etat)
  else
    let solde_exp := recuperer_solde etat.utilisateurs nom_utilisateur
    let montant_centimes := convertir_dollars_vers_centimes montant_dollars
    let frais := calculer_frais montant_centimes
    if solde_exp < montant_centimes + frais then (false, etat)
    else
      let r1 := ajouter_au_solde etat.utilisateurs nom_utilisateur (-montant_centimes - frais)
      if r1.1 = false then (false, ⟨r1.2, etat.transactions⟩)
      else
        let r2 := ajouter_au_solde r1.2 destinataire montant_centimes
        if r2.1 = false then (false, ⟨r2.2, etat.transactions⟩)
        else
          (true, enregistrer_transaction ⟨r2.2, etat.transactions⟩
                   nom_utilisateur destinataire montant_centimes frais date_heure)

/-- src/gestion_utilisateurs.py, enregistrer_utilisateur.  The two input()
calls become the nom_utilisateur and mot_de_passe arguments; the timestamp of
the initial-funding transaction is the date_heure argument. -/
def enregistrer_utilisateur (etat : Etat) (nom_utilisateur mot_de_passe : String)
    (date_heure : String) : Bool × Etat :=
  if nom_utilisateur = "" ∨ mot_de_passe = "" then (false, etat)
  else if utilisateur_existe etat.utilisateurs nom_utilisateur then (false, etat)
  else
    let hachage := hacher_mot_de_passe mot_de_passe
    (true,
     enregistrer_transaction
       ⟨etat.utilisateurs ++ [⟨nom_utilisateur, hachage, SOLDE_INITIAL⟩], etat.transactions⟩
       NOM_UTILISATEUR_ADMIN nom_utilisateur SOLDE_INITIAL 0 date_heure)

/-- Group the digits of a reversed digit sequence in threes, inserting the
comma thousands separators produced by the Python format specifier , . -/
def grouper_milliers : List Char → List Char
  | a :: b :: c :: d :: reste => a :: b :: c :: ',' :: grouper_milliers (d :: reste)
  | l => l

/-- Decimal rendering of an integer with comma thousands separators, as the
Python format f-string with the , option renders the integral part. -/
def formater_entier (n : Int) : String :=
  let groupes := String.mk (grouper_milliers (Nat.repr n.natAbs).toList.reverse).reverse
  if n < 0 then "-" ++ groupes else groupes

/-- src/utilitaires.py, formater_argent:
dollars, centimes = divmod(montant_en_centimes, 100), then the f-string
{dollars:,.2f} $ when centimes is nonzero and {dollars:,.0f} $ otherwise.
Python divmod floors, and formatting the integer dollars with two decimal
places always renders the decimals as 00. -/
def formater_argent (montant_en_centimes : Int) : String :=
  if Int.emod montant_en_centimes 100 ≠ 0 then
    formater_entier (Int.ediv montant_en_centimes 100) ++ ".00 $"
  else
    formater_entier (Int.ediv montant_en_centimes 100) ++ " $"

/-- src/transactions.py, consulter_transactions: collect, in file order, a
display row for every line where the user is sender or receiver.  The rows
are what afficher_tableau receives. -/
def consulter_transactions : List Transaction → String → List (List String)
  | [], _ => []
  | t :: reste, nom_utilisateur =>
      if t.expediteur == nom_utilisateur || t.destinataire == nom_utilisateur then
        [t.date_heure, t.expediteur, t.destinataire,
         formater_argent t.montant, formater_argent t.frais] :: consulter_transactions reste nom_utilisateur
      else consulter_transactions reste nom_utilisateur

/-- The empty store: both files exist and are empty (garantir_existence_fichier
in src/ift1004_union.py creates them empty on first run). -/
def etat_vide : Etat := ⟨[], []⟩

/-- States reachable from the empty store by successful registrations
(enregistrer_utilisateur) and successful transfers (envoyer_argent). -/
inductive Atteignable : Etat → Prop where
  | vide : Atteignable etat_vide
  | enregistrement {e e' : Etat} (nom mdp date : String) :
      Atteignable e → enregistrer_utilisateur e nom mdp date = (true, e') → Atteignable e'
  | envoi {e e' : Etat} (nom dest : String) (q : ℚ) (date : String) :
      Atteignable e → envoyer_argent e nom dest q date = (true, e') → Atteignable e'

/-- The usernames of the accounts file, in file order. -/
def noms (utilisateurs : List Utilisateur) : List String :=
  utilisateurs.map Utilisateur.nom

/-- A two-account store used to exercise a successful transfer. -/
def etatT1 : Etat := ⟨[⟨"alice", "mdpA", 100000⟩, ⟨"bob", "mdpB", 100000⟩], []⟩

/-- The store after alice sends one dollar to bob: 100 cents move, 5 cents of
fees are charged to alice. -/
def etatT1' : Etat :=
  ⟨[⟨"alice", "mdpA", 99895⟩, ⟨"bob", "mdpB", 100100⟩], [⟨"alice", "bob", 100, 5, "t"⟩]⟩

/-- A one-account store whose only balance is below any one-dollar transfer. -/
def etatT2 : Etat := ⟨[⟨"alice", "mdpA", 50⟩], []⟩

/-- The boundary condition between two consecutive tranches: the fee at the
first amount of the upper tranche is at least the fee at the last amount of
the lower tranche. -/
def frontiere_croissante (t t' : Tranche) : Prop :=
  ∀ b : Int, t.borne_sup = some b → calculer_frais b ≤ calculer_frais t'.borne_inf

/-- Appending a batch of transaction records to the log, one
enregistrer_transaction call per record. -/
def ecrire_transactions (etat : Etat) (ts : List Transaction) : Etat :=
  ts.foldl (fun acc t =>
    enregistrer_transaction acc t.expediteur t.destinataire t.montant t.frais t.date_heure) etat

/-- The store after registering alice on an empty store. -/
def etatT4 : Etat :=
  ⟨[⟨"alice", "mdpA", SOLDE_INITIAL⟩],
   [⟨NOM_UTILISATEUR_ADMIN, "alice", SOLDE_INITIAL, 0, "t"⟩]⟩

/-- The store after registering an account under the administrative username
on an empty store: nothing stops a user from taking that name. -/
def etatAdmin : Etat :=
  ⟨[⟨"ift-1004-union", "mdp", SOLDE_INITIAL⟩],
   [⟨NOM_UTILISATEUR_ADMIN, "ift-1004-union", SOLDE_INITIAL, 0, "t"⟩]⟩

/-- A one-account store without any bob record. -/
def etatT3 : Etat := ⟨[⟨"alice", "mdpA", 100000⟩], []⟩

/-- C6 scenario, step 1: a user registers under the administrative username. -/
def etatC6a : Etat :=
  ⟨[⟨"ift-1004-union", "mdp", 100000⟩],
   [⟨"ift-1004-union", "ift-1004-union", 100000, 0, "t1"⟩]⟩

/-- C6 scenario, step 2: carol registers. -/
def etatC6b : Etat :=
  ⟨[⟨"ift-1004-union", "mdp", 100000⟩, ⟨"carol", "mdp", 100000⟩],
   [⟨"ift-1004-union", "ift-1004-union", 100000, 0, "t1"⟩,
    ⟨"ift-1004-union", "carol", 100000, 0, "t2"⟩]⟩

/-- C6 scenario, step 3: carol sends 300 dollars to the admin-named account
(30000 cents plus 7500 cents of fees). -/
def etatC6c : Etat :=
  ⟨[⟨"ift-1004-union", "mdp", 130000⟩, ⟨"carol", "mdp", 62500⟩],
   [⟨"ift-1004-union", "ift-1004-union", 100000, 0, "t1"⟩,
    ⟨"ift-1004-union", "carol", 100000, 0, "t2"⟩,
    ⟨"carol", "ift-1004-union", 30000, 7500, "t3"⟩]⟩

/-- C6 scenario, step 4: the admin-named account sends 1000 dollars to bob,
who does not exist; the transfer succeeds anyway and logs a line with sender
equal to the administrative name, receiver bob and amount 100000 cents. -/
def etatC6d : Etat :=
  ⟨[⟨"ift-1004-union", "mdp", 5000⟩, ⟨"carol", "mdp", 62500⟩],
   [⟨"ift-1004-union", "ift-1004-union", 100000, 0, "t1"⟩,
    ⟨"ift-1004-union", "carol", 100000, 0, "t2"⟩,
    ⟨"carol", "ift-1004-union", 30000, 7500, "t3"⟩,
    ⟨"ift-1004-union", "bob", 100000, 25000, "t4"⟩]⟩

theorem convertir_intCast (n : ℤ) :
    convertir_dollars_vers_centimes (n : ℚ) = 100 * n := by
  unfold convertir_dollars_vers_centimes
  have h : (n : ℚ) * 100 = ((100 * n : ℤ) : ℚ) := by push_cast; ring
  rw [h]
  split_ifs
  case pos => exact Int.floor_intCast _
  case neg => exact Int.ceil_intCast _

theorem SOLDE_INITIAL_eq : SOLDE_INITIAL = 100000 := by
  unfold SOLDE_INITIAL
  simpa using convertir_intCast 1000

theorem convertir_nonneg {q : ℚ} (hq : 0 ≤ q) :
    0 ≤ convertir_dollars_vers_centimes q := by
  unfold convertir_dollars_vers_centimes
  have h : 0 ≤ q * 100 := by positivity
  rw [if_pos h]
  exact Int.floor_nonneg.mpr h

theorem ajouter_au_solde_fst (l : List Utilisateur) (n : String) (m : Int) :
    (ajouter_au_solde l n m).1 = true := rfl

theorem ajouter_au_solde_snd (l : List Utilisateur) (n : String) (m : Int) :
    (ajouter_au_solde l n m).2
      = l.map (fun u => if u.nom = n then ⟨u.nom, u.mot_de_passe, u.solde + m⟩ else u) := rfl

theorem noms_ajouter_au_solde (l : List Utilisateur) (n : String) (m : Int) :
    noms (ajouter_au_solde l n m).2 = noms l := by
  induction l with
  | nil => rfl
  | cons u reste ih =>
      simp only [ajouter_au_solde, noms, List.map_cons] at ih ⊢
      split_ifs <;> simp_all

theorem recuperer_solde_ajouter_meme (l : List Utilisateur) (n : String) (m : Int)
    (h : n ∈ noms l) :
    recuperer_solde (ajouter_au_solde l n m).2 n = recuperer_solde l n + m := by
  induction l with
  | nil => simp [noms] at h
  | cons u reste ih =>
      by_cases hn : u.nom = n
      · simp [ajouter_au_solde, recuperer_solde, hn]
      · have h' : n ∈ noms reste := by
          simp only [noms, List.map_cons, List.mem_cons] at h
          rcases h with h | h
          · exact absurd h.symm hn
          · exact h
        simpa [ajouter_au_solde, recuperer_solde, hn] using ih h'

theorem recuperer_solde_ajouter_autre (l : List Utilisateur) (n n' : String) (m : Int)
    (h : n' ≠ n) :
    recuperer_solde (ajouter_au_solde l n m).2 n' = recuperer_solde l n' := by
  induction l with
  | nil => rfl
  | cons u reste ih =>
      simp only [ajouter_au_solde, List.map_cons] at ih ⊢
      by_cases hn : u.nom = n
      · have hne : ¬ u.nom = n' := by rw [hn]; exact fun he => h he.symm
        rw [if_pos hn]
        simp only [recuperer_solde]
        rw [if_neg hne, if_neg hne]
        exact ih
      · rw [if_neg hn]
        simp only [recuperer_solde]
        by_cases hn' : u.nom = n'
        · rw [if_pos hn', if_pos hn']
        · rw [if_neg hn', if_neg hn']
          exact ih

theorem utilisateur_existe_iff (l : List Utilisateur) (n : String) :
    utilisateur_existe l n = true ↔ n ∈ noms l := by
  simp only [utilisateur_existe, List.any_eq_true, beq_iff_eq, noms, List.mem_map]

theorem solde_du_nom (l : List Utilisateur) (n : String) (u : Utilisateur)
    (hnd : (noms l).Nodup) (hu : u ∈ l) (hn : u.nom = n) :
    u.solde = recuperer_solde l n := by
  induction l with
  | nil => simp at hu
  | cons v reste ih =>
      simp only [noms, List.map_cons, List.nodup_cons] at hnd
      rcases List.mem_cons.1 hu with rfl | hu'
      · simp [recuperer_solde, hn]
      · have hvn : ¬ v.nom = n := fun he =>
          hnd.1 (by rw [he, ← hn]; exact List.mem_map_of_mem Utilisateur.nom hu')
        simp only [recuperer_solde, hvn, if_false]
        exact ih hnd.2 hu'

/-- envoyer_argent with its local variables inlined and the two dead error
branches reduced: ajouter_au_solde always reports success, so the transfer
commits whenever the three validations pass. -/
theorem envoyer_argent_def (etat : Etat) (s d : String) (q : ℚ) (date : String) :
    envoyer_argent etat s d q date =
      if d = s then (false, etat)
      else if q ≤ 0 then (false, etat)
      else if recuperer_solde etat.utilisateurs s <
          convertir_dollars_vers_centimes q + calculer_frais (convertir_dollars_vers_centimes q) then
        (false, etat)
      else
        (true, ⟨(ajouter_au_solde
                   (ajouter_au_solde etat.utilisateurs s
                     (-convertir_dollars_vers_centimes q
                       - calculer_frais (convertir_dollars_vers_centimes q))).2
                   d (convertir_dollars_vers_centimes q)).2,
                etat.transactions ++
                  [⟨s, d, convertir_dollars_vers_centimes q,
                    calculer_frais (convertir_dollars_vers_centimes q), date⟩]⟩) := rfl

/-- enregistrer_utilisateur with its local variable inlined. -/
theorem enregistrer_utilisateur_def (etat : Etat) (nom mdp date : String) :
    enregistrer_utilisateur etat nom mdp date =
      if nom = "" ∨ mdp = "" then (false, etat)
      else if utilisateur_existe etat.utilisateurs nom then (false, etat)
      else
        (true, ⟨etat.utilisateurs ++ [⟨nom, hacher_mot_de_passe mdp, SOLDE_INITIAL⟩],
                etat.transactions ++ [⟨NOM_UTILISATEUR_ADMIN, nom, SOLDE_INITIAL, 0, date⟩]⟩) := rfl

/-- What a successful transfer implies: the validations passed and the new
state is both balance updates plus the appended log line. -/
theorem envoyer_argent_vrai {etat etat' : Etat} {s d : String} {q : ℚ} {date : String}
    (h : envoyer_argent etat s d q date = (true, etat')) :
    d ≠ s ∧ 0 < q ∧
    convertir_dollars_vers_centimes q + calculer_frais (convertir_dollars_vers_centimes q)
      ≤ recuperer_solde etat.utilisateurs s ∧
    etat' = ⟨(ajouter_au_solde
                (ajouter_au_solde etat.utilisateurs s
                  (-convertir_dollars_vers_centimes q
                    - calculer_frais (convertir_dollars_vers_centimes q))).2
                d (convertir_dollars_vers_centimes q)).2,
             etat.transactions ++
               [⟨s, d, convertir_dollars_vers_centimes q,
                 calculer_frais (convertir_dollars_vers_centimes q), date⟩]⟩ := by
  rw [envoyer_argent_def] at h
  split_ifs at h with h1 h2 h3
  · exact absurd h (by simp)
  · exact absurd h (by simp)
  · exact absurd h (by simp)
  · exact ⟨h1, lt_of_not_le (fun hle => h2 hle), le_of_not_lt h3,
      (Prod.mk.injEq _ _ _ _ ▸ h).2.symm⟩

/-- Converse: when the three validations pass the transfer commits. -/
theorem envoyer_argent_eq_vrai {etat : Etat} {s d : String} {q : ℚ} {date : String}
    (h1 : ¬ d = s) (h2 : ¬ q ≤ 0)
    (h3 : ¬ recuperer_solde etat.utilisateurs s <
        convertir_dollars_vers_centimes q + calculer_frais (convertir_dollars_vers_centimes q)) :
    envoyer_argent etat s d q date =
      (true, ⟨(ajouter_au_solde
                 (ajouter_au_solde etat.utilisateurs s
                   (-convertir_dollars_vers_centimes q
                     - calculer_frais (convertir_dollars_vers_centimes q))).2
                 d (convertir_dollars_vers_centimes q)).2,
              etat.transactions ++
                [⟨s, d, convertir_dollars_vers_centimes q,
                  calculer_frais (convertir_dollars_vers_centimes q), date⟩]⟩) := by
  rw [envoyer_argent_def, if_neg h1, if_neg h2, if_neg h3]

/-- What a successful registration implies. -/
theorem enregistrer_utilisateur_vrai {etat etat' : Etat} {nom mdp date : String}
    (h : enregistrer_utilisateur etat nom mdp date = (true, etat')) :
    nom ≠ "" ∧ mdp ≠ "" ∧ utilisateur_existe etat.utilisateurs nom = false ∧
    etat' = ⟨etat.utilisateurs ++ [⟨nom, hacher_mot_de_passe mdp, SOLDE_INITIAL⟩],
             etat.transactions ++ [⟨NOM_UTILISATEUR_ADMIN, nom, SOLDE_INITIAL, 0, date⟩]⟩ := by
  rw [enregistrer_utilisateur_def] at h
  split_ifs at h with h1 h2
  · exact absurd h (by simp)
  · exact absurd h (by simp)
  · push_neg at h1
    exact ⟨h1.1, h1.2, Bool.not_eq_true _ ▸ h2, (Prod.mk.injEq _ _ _ _ ▸ h).2.symm⟩

/-- Converse: when both validations pass the registration commits. -/
theorem enregistrer_utilisateur_eq_vrai {etat : Etat} {nom mdp date : String}
    (h1 : ¬ (nom = "" ∨ mdp = "")) (h2 : ¬ utilisateur_existe etat.utilisateurs nom = true) :
    enregistrer_utilisateur etat nom mdp date =
      (true, ⟨etat.utilisateurs ++ [⟨nom, hacher_mot_de_passe mdp, SOLDE_INITIAL⟩],
              etat.transactions ++ [⟨NOM_UTILISATEUR_ADMIN, nom, SOLDE_INITIAL, 0, date⟩]⟩) := by
  rw [enregistrer_utilisateur_def, if_neg h1, if_neg h2]

theorem convertir_un : convertir_dollars_vers_centimes (1 : ℚ) = 100 := by
  simpa using convertir_intCast 1

theorem envoiT1 : envoyer_argent etatT1 "alice" "bob" 1 "t" = (true, etatT1') := by
  rw [envoyer_argent_eq_vrai (by decide) (by norm_num) (by rw [convertir_un]; decide)]
  rw [convertir_un]
  decide

/-- Claim C1: a successful transfer between two existing distinct accounts debits
the sender by amount plus fee and credits the receiver by the amount. -/
theorem C1_transfert_reussi_soldes (etat etat' : Etat) (s d : String) (q : ℚ) (date : String)
    (hsd : s ≠ d)
    (hs : s ∈ noms etat.utilisateurs) (hd : d ∈ noms etat.utilisateurs)
    (hq : 0 < q)
    (h : envoyer_argent etat s d q date = (true, etat')) :
    recuperer_solde etat'.utilisateurs s
      = recuperer_solde etat.utilisateurs s - convertir_dollars_vers_centimes q
          - calculer_frais (convertir_dollars_vers_centimes q)
    ∧ recuperer_solde etat'.utilisateurs d
      = recuperer_solde etat.utilisateurs d + convertir_dollars_vers_centimes q := by
  obtain ⟨hds, -, -, rfl⟩ := envoyer_argent_vrai h
  constructor
  · rw [recuperer_solde_ajouter_autre _ _ _ _ hsd,
        recuperer_solde_ajouter_meme _ _ _ hs]
    ring
  · rw [recuperer_solde_ajouter_meme _ _ _ (by rw [noms_ajouter_au_solde]; exact hd),
        recuperer_solde_ajouter_autre _ _ _ _ hds]

theorem C1_witness :
    recuperer_solde etatT1'.utilisateurs "alice"
      = recuperer_solde etatT1.utilisateurs "alice" - convertir_dollars_vers_centimes 1
          - calculer_frais (convertir_dollars_vers_centimes 1)
    ∧ recuperer_solde etatT1'.utilisateurs "bob"
      = recuperer_solde etatT1.utilisateurs "bob" + convertir_dollars_vers_centimes 1 :=
  C1_transfert_reussi_soldes etatT1 etatT1' "alice" "bob" 1 "t"
    (by decide) (by decide) (by decide) (by norm_num) envoiT1

/-- Claim C2: evaluating the fee function at the two amounts of the worked example.
The tier bounds are matched against the amount in cents, so 10000 cents falls
in the 25 percent tier, not the 5 percent tier of the example. -/
theorem C2_frais_exemples : calculer_frais 10000 = 2500 ∧ calculer_frais 20000 = 5000 := by
  decide

/-- Claim C4: when the sender balance is below amount plus fee the transfer reports
failure and neither stored balance changes. -/
theorem C4_fonds_insuffisants (etat : Etat) (s d : String) (q : ℚ) (date : String)
    (h : recuperer_solde etat.utilisateurs s
        < convertir_dollars_vers_centimes q + calculer_frais (convertir_dollars_vers_centimes q)) :
    (envoyer_argent etat s d q date).1 = false
    ∧ recuperer_solde (envoyer_argent etat s d q date).2.utilisateurs s
        = recuperer_solde etat.utilisateurs s
    ∧ recuperer_solde (envoyer_argent etat s d q date).2.utilisateurs d
        = recuperer_solde etat.utilisateurs d := by
  have he : envoyer_argent etat s d q date = (false, etat) := by
    by_cases h1 : d = s
    · rw [envoyer_argent_def, if_pos h1]
    · by_cases h2 : q ≤ 0
      · rw [envoyer_argent_def, if_neg h1, if_pos h2]
      · rw [envoyer_argent_def, if_neg h1, if_neg h2, if_pos h]
  rw [he]
  exact ⟨rfl, rfl, rfl⟩

theorem C4_witness :
    (envoyer_argent etatT2 "alice" "bob" 1 "t").1 = false
    ∧ recuperer_solde (envoyer_argent etatT2 "alice" "bob" 1 "t").2.utilisateurs "alice"
        = recuperer_solde etatT2.utilisateurs "alice"
    ∧ recuperer_solde (envoyer_argent etatT2 "alice" "bob" 1 "t").2.utilisateurs "bob"
        = recuperer_solde etatT2.utilisateurs "bob" :=
  C4_fonds_insuffisants etatT2 "alice" "bob" 1 "t" (by rw [convertir_un]; decide)

/-- Claim C9: evaluating the money formatter.  The cents part is dropped: formatting
the integer dollar count with two decimals always renders 00, and a whole
dollar amount is rendered with no decimals at all. -/
theorem C9_formater_argent_perd_les_centimes :
    formater_argent 12345 = "123.00 $"
    ∧ formater_argent 100 = "1 $"
    ∧ formater_argent 1234567 = "12,345.00 $" := by
  decide

/-- Claim C10: ajouter_au_solde always reports success, keeps every differently
named record unchanged at its position, and rewrites the store unchanged when
no record matches. -/
theorem C10_ajouter_au_solde_cadre (l : List Utilisateur) (n : String) (m : Int) :
    (ajouter_au_solde l n m).1 = true
    ∧ ((ajouter_au_solde l n m).2).length = l.length
    ∧ (∀ (i : ℕ) (u : Utilisateur), l[i]? = some u → u.nom ≠ n →
        ((ajouter_au_solde l n m).2)[i]? = some u)
    ∧ ((∀ u ∈ l, u.nom ≠ n) → (ajouter_au_solde l n m).2 = l) := by
  refine ⟨rfl, by simp [ajouter_au_solde], ?_, ?_⟩
  · intro i u hi hn
    rw [ajouter_au_solde_snd, List.getElem?_map, hi]
    simp [hn]
  · intro h
    rw [ajouter_au_solde_snd]
    have hid : ∀ u ∈ l,
        (if u.nom = n then (⟨u.nom, u.mot_de_passe, u.solde + m⟩ : Utilisateur) else u) = u :=
      fun u hu => if_neg (h u hu)
    rw [List.map_congr_left hid]
    simp

theorem C10_witness :
    (ajouter_au_solde [⟨"alice", "a", 7⟩, ⟨"bob", "b", 9⟩] "bob" 5).1 = true
    ∧ ((ajouter_au_solde [⟨"alice", "a", 7⟩, ⟨"bob", "b", 9⟩] "bob" 5).2)[0]?
        = some ⟨"alice", "a", 7⟩
    ∧ (ajouter_au_solde [⟨"alice", "a", 7⟩] "bob" 5).2 = [⟨"alice", "a", 7⟩] :=
  ⟨(C10_ajouter_au_solde_cadre [⟨"alice", "a", 7⟩, ⟨"bob", "b", 9⟩] "bob" 5).1,
   (C10_ajouter_au_solde_cadre [⟨"alice", "a", 7⟩, ⟨"bob", "b", 9⟩] "bob" 5).2.2.1 0
     ⟨"alice", "a", 7⟩ rfl (by decide),
   (C10_ajouter_au_solde_cadre [⟨"alice", "a", 7⟩] "bob" 5).2.2.2 (by decide)⟩

theorem tdiv_cent_mono {a b : Int} (ha : 0 ≤ a) (hab : a ≤ b) :
    Int.tdiv a 100 ≤ Int.tdiv b 100 := by
  rw [Int.tdiv_eq_ediv ha (by norm_num), Int.tdiv_eq_ediv (le_trans ha hab) (by norm_num)]
  exact Int.ediv_le_ediv (by norm_num) hab

/-- Any configured tranche that matches an amount is the tranche the scan of
calculer_frais selects: the configured tranches are pairwise disjoint. -/
theorem calculer_frais_tranche (t : Tranche) (ht : t ∈ FRAIS_TRANSACTIONS) (m : Int)
    (hm : dans_tranche t m = true) :
    calculer_frais m = Int.tdiv (m * t.frais) 100 := by
  simp only [FRAIS_TRANSACTIONS, List.mem_cons, List.not_mem_nil, or_false] at ht
  rcases ht with rfl | rfl | rfl | rfl | rfl <;>
  · simp only [dans_tranche, Bool.and_eq_true, decide_eq_true_eq] at hm
    simp only [calculer_frais, calculer_frais_aux, FRAIS_TRANSACTIONS, dans_tranche,
               Bool.and_eq_true, decide_eq_true_eq]
    split_ifs <;> first | rfl | omega

/-- The amounts matched by a configured tranche and its rate are non-negative. -/
theorem tranche_bornes (t : Tranche) (ht : t ∈ FRAIS_TRANSACTIONS) (m : Int)
    (hm : dans_tranche t m = true) : 0 ≤ m ∧ 0 ≤ t.frais := by
  simp only [FRAIS_TRANSACTIONS, List.mem_cons, List.not_mem_nil, or_false] at ht
  rcases ht with rfl | rfl | rfl | rfl | rfl <;>
  · simp only [dans_tranche, Bool.and_eq_true, decide_eq_true_eq] at hm
    exact ⟨by omega, by decide⟩

/-- Claim C7: the implemented fee is monotone within each configured tranche, and
never decreases across each boundary between consecutive configured tranches. -/
theorem C7_frais_monotones :
    (∀ t ∈ FRAIS_TRANSACTIONS, ∀ m1 m2 : Int,
        dans_tranche t m1 = true → dans_tranche t m2 = true → m1 ≤ m2 →
        calculer_frais m1 ≤ calculer_frais m2)
    ∧ List.Chain' frontiere_croissante FRAIS_TRANSACTIONS := by
  constructor
  · intro t ht m1 m2 h1 h2 h12
    rw [calculer_frais_tranche t ht m1 h1, calculer_frais_tranche t ht m2 h2]
    obtain ⟨hm1, hfr⟩ := tranche_bornes t ht m1 h1
    exact tdiv_cent_mono (mul_nonneg hm1 hfr) (mul_le_mul_of_nonneg_right h12 hfr)
  · simp only [FRAIS_TRANSACTIONS, List.chain'_cons, List.chain'_singleton, and_true]
    refine ⟨?_, ?_, ?_, ?_⟩ <;>
    · intro b hb
      simp only [Option.some.injEq] at hb
      subst hb
      decide

theorem C7_witness : calculer_frais 10 ≤ calculer_frais 20 :=
  C7_frais_monotones.1 ⟨0, some 100, 5⟩ (by decide) 10 20 (by decide) (by decide) (by decide)

theorem ecrire_transactions_transactions (etat : Etat) (ts : List Transaction) :
    (ecrire_transactions etat ts).transactions = etat.transactions ++ ts := by
  induction ts generalizing etat with
  | nil => simp [ecrire_transactions]
  | cons t ts ih =>
      simp only [ecrire_transactions, List.foldl_cons] at ih ⊢
      rw [ih]
      have he : (⟨t.expediteur, t.destinataire, t.montant, t.frais, t.date_heure⟩
          : Transaction) = t := rfl
      simp [enregistrer_transaction, he]

/-- Claim C8: after writing a batch of records into an empty log, the query for a
user returns exactly the display rows of the records where the user is sender
or receiver, in insertion order. -/
theorem C8_aller_retour (ts : List Transaction) (u : String) :
    consulter_transactions (ecrire_transactions etat_vide ts).transactions u
      = (ts.filter (fun t => t.expediteur == u || t.destinataire == u)).map
          (fun t => [t.date_heure, t.expediteur, t.destinataire,
                     formater_argent t.montant, formater_argent t.frais]) := by
  rw [ecrire_transactions_transactions]
  show consulter_transactions ([] ++ ts) u = _
  rw [List.nil_append]
  induction ts with
  | nil => rfl
  | cons t ts ih =>
      simp only [consulter_transactions, List.filter_cons]
      cases h : (t.expediteur == u || t.destinataire == u) with
      | true => simp [h, ih]
      | false => simp [h, ih]

/-- Invariant of every reachable store: usernames are pairwise distinct and
every stored balance is non-negative. -/
theorem atteignable_noms_nodup_et_soldes {e : Etat} (h : Atteignable e) :
    (noms e.utilisateurs).Nodup ∧ ∀ u ∈ e.utilisateurs, 0 ≤ u.solde := by
  induction h with
  | vide => exact ⟨List.nodup_nil, by intro u hu; simp [etat_vide] at hu⟩
  | enregistrement nom mdp date _ hpas ih =>
      obtain ⟨-, -, hex, rfl⟩ := enregistrer_utilisateur_vrai hpas
      obtain ⟨hnd, hpos⟩ := ih
      have hnmem : nom ∉ noms _ := fun hm => by
        have := (utilisateur_existe_iff _ nom).2 hm
        rw [hex] at this
        exact Bool.false_ne_true this
      constructor
      · simp only [noms, List.map_append, List.map_cons, List.map_nil]
        rw [List.nodup_append]
        refine ⟨hnd, List.nodup_singleton _, ?_⟩
        intro a ha hb
        simp only [List.mem_singleton] at hb
        subst hb
        exact hnmem ha
      · intro u hu
        rcases List.mem_append.1 hu with hu | hu
        · exact hpos u hu
        · simp only [List.mem_singleton] at hu
          subst hu
          rw [SOLDE_INITIAL_eq]
          norm_num
  | envoi nom dest q date _ hpas ih =>
      obtain ⟨hds, hq, hsolde, rfl⟩ := envoyer_argent_vrai hpas
      obtain ⟨hnd, hpos⟩ := ih
      have hmc : 0 ≤ convertir_dollars_vers_centimes q := convertir_nonneg hq.le
      constructor
      · rw [noms_ajouter_au_solde, noms_ajouter_au_solde]
        exact hnd
      · intro u' hu'
        rw [ajouter_au_solde_snd, ajouter_au_solde_snd] at hu'
        obtain ⟨u1, hu1, rfl⟩ := List.mem_map.1 hu'
        obtain ⟨u0, hu0, rfl⟩ := List.mem_map.1 hu1
        by_cases h0 : u0.nom = nom
        · have hsol := solde_du_nom _ nom u0 hnd hu0 h0
          rw [if_pos h0]
          have hdest : ¬ (Utilisateur.mk u0.nom u0.mot_de_passe
              (u0.solde + (-convertir_dollars_vers_centimes q
                - calculer_frais (convertir_dollars_vers_centimes q)))).nom = dest := by
            show ¬ u0.nom = dest
            rw [h0]
            exact fun he => hds he.symm
          rw [if_neg hdest]
          show 0 ≤ u0.solde + (-convertir_dollars_vers_centimes q
            - calculer_frais (convertir_dollars_vers_centimes q))
          omega
        · rw [if_neg h0]
          by_cases h1 : u0.nom = dest
          · rw [if_pos h1]
            show 0 ≤ u0.solde + convertir_dollars_vers_centimes q
            have := hpos u0 hu0
            omega
          · rw [if_neg h1]
            exact hpos u0 hu0

/-- Claim C5 (amended): every account record of every reachable store has a
non-negative balance. -/
theorem C5_soldes_non_negatifs {e : Etat} (h : Atteignable e) :
    ∀ u ∈ e.utilisateurs, 0 ≤ u.solde :=
  (atteignable_noms_nodup_et_soldes h).2

theorem atteignable_etatT4 : Atteignable etatT4 :=
  Atteignable.enregistrement "alice" "mdpA" "t" Atteignable.vide rfl

theorem C5_witness : 0 ≤ (Utilisateur.mk "alice" "mdpA" SOLDE_INITIAL).solde :=
  C5_soldes_non_negatifs atteignable_etatT4 ⟨"alice", "mdpA", SOLDE_INITIAL⟩ (List.Mem.head _)

theorem atteignable_etatAdmin : Atteignable etatAdmin :=
  Atteignable.enregistrement "ift-1004-union" "mdp" "t" Atteignable.vide rfl

/-- Claim C5, counterexample: it is not the case that in every reachable store
all balances are non-negative and the administrative username never appears as
an account record: the reachable store etatAdmin holds such a record. -/
theorem C5_contre_exemple :
    ¬ ∀ e : Etat, Atteignable e →
        (∀ u ∈ e.utilisateurs, 0 ≤ u.solde)
        ∧ NOM_UTILISATEUR_ADMIN ∉ noms e.utilisateurs :=
  fun h => (h etatAdmin atteignable_etatAdmin).2 (by decide)

/-- Claim C3: a transfer to a receiver that does not exist reports success, debits
the sender, and still creates no record for the receiver. -/
theorem C3_virement_vers_inexistant_reussit :
    utilisateur_existe etatT3.utilisateurs "bob" = false
    ∧ (envoyer_argent etatT3 "alice" "bob" 1 "t").1 = true
    ∧ (envoyer_argent etatT3 "alice" "bob" 1 "t").2
        = ⟨[⟨"alice", "mdpA", 99895⟩], [⟨"alice", "bob", 100, 5, "t"⟩]⟩
    ∧ utilisateur_existe (envoyer_argent etatT3 "alice" "bob" 1 "t").2.utilisateurs "bob"
        = false := by
  have h : envoyer_argent etatT3 "alice" "bob" 1 "t"
      = (true, ⟨[⟨"alice", "mdpA", 99895⟩], [⟨"alice", "bob", 100, 5, "t"⟩]⟩) := by
    rw [envoyer_argent_eq_vrai (by decide) (by norm_num) (by rw [convertir_un]; decide),
        convertir_un]
    decide
  exact ⟨by decide, by rw [h], by rw [h], by rw [h]; decide⟩

theorem convertir_trois_cents : convertir_dollars_vers_centimes (300 : ℚ) = 30000 := by
  simpa using convertir_intCast 300

theorem convertir_mille : convertir_dollars_vers_centimes (1000 : ℚ) = 100000 := by
  simpa using convertir_intCast 1000

theorem pasC6a : enregistrer_utilisateur etat_vide "ift-1004-union" "mdp" "t1"
    = (true, etatC6a) := by
  rw [enregistrer_utilisateur_eq_vrai (by decide) (by decide), SOLDE_INITIAL_eq]
  decide

theorem pasC6b : enregistrer_utilisateur etatC6a "carol" "mdp" "t2"
    = (true, etatC6b) := by
  rw [enregistrer_utilisateur_eq_vrai (by decide) (by decide), SOLDE_INITIAL_eq]
  decide

theorem pasC6c : envoyer_argent etatC6b "carol" "ift-1004-union" 300 "t3"
    = (true, etatC6c) := by
  rw [envoyer_argent_eq_vrai (by decide) (by norm_num) (by rw [convertir_trois_cents]; decide),
      convertir_trois_cents]
  decide

theorem pasC6d : envoyer_argent etatC6c "ift-1004-union" "bob" 1000 "t4"
    = (true, etatC6d) := by
  rw [envoyer_argent_eq_vrai (by decide) (by norm_num) (by rw [convertir_mille]; decide),
      convertir_mille]
  decide

theorem atteignable_etatC6d : Atteignable etatC6d :=
  Atteignable.envoi "ift-1004-union" "bob" 1000 "t4"
    (Atteignable.envoi "carol" "ift-1004-union" 300 "t3"
      (Atteignable.enregistrement "carol" "mdp" "t2"
        (Atteignable.enregistrement "ift-1004-union" "mdp" "t1" Atteignable.vide pasC6a)
        pasC6b)
      pasC6c)
    pasC6d

/-- Claim C6: in the reachable store etatC6d, registering bob succeeds and credits
him with the initial balance, but afterwards the log holds two records whose
receiver is bob, whose amount is the initial balance and whose sender is the
administrative username, not exactly one. -/
theorem C6_double_transaction_initiale :
    Atteignable etatC6d
    ∧ (enregistrer_utilisateur etatC6d "bob" "mdp" "t5").1 = true
    ∧ recuperer_solde (enregistrer_utilisateur etatC6d "bob" "mdp" "t5").2.utilisateurs "bob"
        = SOLDE_INITIAL
    ∧ ((enregistrer_utilisateur etatC6d "bob" "mdp" "t5").2.transactions.filter
        (fun t => t.destinataire == "bob" && t.montant == SOLDE_INITIAL
            && t.expediteur == NOM_UTILISATEUR_ADMIN)).length = 2 := by
  have h : enregistrer_utilisateur etatC6d "bob" "mdp" "t5"
      = (true,
         ⟨etatC6d.utilisateurs ++ [⟨"bob", hacher_mot_de_passe "mdp", SOLDE_INITIAL⟩],
          etatC6d.transactions ++ [⟨NOM_UTILISATEUR_ADMIN, "bob", SOLDE_INITIAL, 0, "t5"⟩]⟩) :=
    enregistrer_utilisateur_eq_vrai (by decide) (by decide)
  refine ⟨atteignable_etatC6d, by rw [h], ?_, ?_⟩
  · rw [h, SOLDE_INITIAL_eq]
    decide
  · rw [h, SOLDE_INITIAL_eq]
    decide

